import Mathlib

/-!
Verification of the zone scoring and ranking engine of the openplaces backend
(`backend/app/services/recommendations.py`, with the `Zone` input model from
`backend/app/services/zones.py`).

Python floats are modelled as exact rationals (`ℚ`), Python ints as `ℤ`/`ℕ`.
`round(x, n)` uses round-half-to-even, as documented for Python's `round`.
Exceptions raised inside the engine are modelled by `Except PyErr`.
The Haversine helper `_calculate_distance` computes with `math.sin`/`cos`/
`atan2`/`sqrt`, which have no exact rational embedding; the scoring pipeline
is therefore parameterised over the distance function `dist`, and every
theorem about the pipeline holds for an arbitrary `dist`, hence in
particular for the Haversine one.
-/

namespace OpenPlaces

/-- Runtime errors the embedded code can raise. -/
inductive PyErr
  | typeError
  | attributeError
deriving DecidableEq, Repr

/-! ### Python builtin helpers -/

/-- `round(x)` to an integer, half-to-even (Python's banker's rounding). -/
def pyRound0 (x : ℚ) : ℤ :=
  let f := x.floor
  let r := x - (f : ℚ)
  if r < 1/2 then f
  else if 1/2 < r then f + 1
  else if f % 2 = 0 then f else f + 1

/-- `round(x, 1)`. -/
def round1 (x : ℚ) : ℚ := (pyRound0 (10 * x) : ℚ) / 10

/-- `round(x, 2)`. -/
def round2 (x : ℚ) : ℚ := (pyRound0 (100 * x) : ℚ) / 100

/-- `int(x)` on a float: truncation toward zero. -/
def pyTrunc (x : ℚ) : ℤ := if x < 0 then -((-x).floor) else x.floor

/-- Non-overlapping left-to-right split of a character list at a separator,
with enough fuel; structured so the kernel can evaluate it. -/
def strSplitFuel (sep : List Char) : ℕ → List Char → List Char → List (List Char)
  | 0, s, acc => [acc.reverse ++ s]
  | _ + 1, [], acc => [acc.reverse]
  | fuel + 1, c :: rest, acc =>
    if sep.isPrefixOf (c :: rest) then
      acc.reverse :: strSplitFuel sep fuel ((c :: rest).drop sep.length) []
    else strSplitFuel sep fuel rest (c :: acc)

/-- Python's `s.split(sep)` for a non-empty separator. -/
def pySplit (s sep : String) : List String :=
  (strSplitFuel sep.data s.data.length s.data []).map (fun cs => String.mk cs)

/-- Python's `s.lower()` (the zone names this engine lowercases are ASCII). -/
def pyLower (s : String) : String := String.mk (s.data.map Char.toLower)

/-- Digit string to number, most significant first. -/
def digitsToNat (cs : List Char) : ℕ := cs.foldl (fun acc c => 10 * acc + (c.toNat - 48)) 0

/-- `int(s)` on a string: optional sign followed by one or more digits.
(The surrounding whitespace and underscore separators CPython also accepts
are not modelled; the engine only meets plain digit strings here.) -/
def parsePyInt (s : String) : Option ℤ :=
  let core : List Char → ℤ → Option ℤ := fun cs sign =>
    if cs ≠ [] ∧ cs.all (fun c => c.isDigit) then some (sign * (digitsToNat cs : ℤ)) else none
  match s.data with
  | '-' :: cs => core cs (-1)
  | '+' :: cs => core cs 1
  | cs => core cs 1

/-- Sakamoto's day-of-week table. -/
def sakamotoOffsets : List ℕ := [0, 3, 2, 5, 0, 3, 5, 1, 4, 6, 2, 4]

/-- Day of week, 0 = Sunday, via Sakamoto's method (proleptic Gregorian,
matching `datetime`). -/
def dayOfWeekIdx (y m d : ℕ) : ℕ :=
  let y' := if m < 3 then y - 1 else y
  (y' + y' / 4 - y' / 100 + y' / 400 + sakamotoOffsets.getD (m - 1) 0 + d) % 7

/-- English weekday names as produced by `strftime("%A")` in the C locale. -/
def weekNames : List String :=
  ["Sunday", "Monday", "Tuesday", "Wednesday", "Thursday", "Friday", "Saturday"]

/-- Length of a month in the Gregorian calendar. -/
def daysInMonth (y m : ℕ) : ℕ :=
  if m = 2 then (if (y % 4 = 0 ∧ y % 100 ≠ 0) ∨ y % 400 = 0 then 29 else 28)
  else if m = 4 ∨ m = 6 ∨ m = 9 ∨ m = 11 then 30 else 31

/-- `datetime.fromisoformat(event_date).strftime("%A")`, modelled for the
plain `YYYY-MM-DD` form (the only event-date shape the system feeds in);
any other string is a parse failure, as it is for `fromisoformat`. -/
def parseDateWeekday (s : String) : Option String :=
  match pySplit s "-" with
  | [ys, ms, ds] =>
    if ys.length = 4 ∧ ms.length = 2 ∧ ds.length = 2 ∧
        (ys.data ++ ms.data ++ ds.data).all (fun c => c.isDigit) then
      let y := digitsToNat ys.data
      let m := digitsToNat ms.data
      let d := digitsToNat ds.data
      if 1 ≤ y ∧ 1 ≤ m ∧ m ≤ 12 ∧ 1 ≤ d ∧ d ≤ daysInMonth y m then
        some (weekNames.getD (dayOfWeekIdx y m d) "")
      else none
    else none
  | _ => none

/-- `int(t.split(":")[0])`: the leading hour of an `"HH:MM"` string. -/
def parseLeadHour (t : String) : Option ℤ := parsePyInt ((pySplit t ":").headD "")

/-- Python's `pat in s` substring test (for non-empty `pat`). -/
def containsSub (s pat : String) : Bool := (pySplit s pat).length > 1

/-! ### Data model (`EventData`, `Zone`, output records) -/

/-- `EventData` (recommendations.py).  `time_period : Optional[str] = "evening"`
may still be explicitly `None`, hence the `Option`. -/
structure EventData where
  name : String
  date : String
  time : String
  venue_lat : ℚ
  venue_lon : ℚ
  target_audience : List String
  event_type : String
  time_period : Option String := some "evening"
deriving DecidableEq, Repr

/-- The `audience_signals` dict of a zone; a key missing from the dict is the
empty list (`zone_audience_signals.get(key, [])`). -/
structure AudienceSignals where
  demographics : List String := []
  interests : List String := []
  behaviors : List String := []
deriving DecidableEq, Repr

/-- One entry of `timing_windows["optimal"]`; missing keys default to `[]`
(`window.get("days", [])`, `window.get("times", [])`) resp. `""`. -/
structure Window where
  days : List String := []
  times : List String := []
  reasoning : String := ""
deriving DecidableEq, Repr

/-- The `timing_windows` dict; a missing `"optimal"` key is the empty list
(`timing_windows.get("optimal", [])`). -/
structure TimingWindows where
  optimal : List Window := []
deriving DecidableEq, Repr

/-- `Zone` (zones.py).  Note the identifier field is `id`, and
`foot_traffic_daily : Optional[int] = None`, so the attribute always exists
and is `None` when absent from the data. -/
structure Zone where
  id : String
  name : String
  lat : ℚ
  lon : ℚ
  audience_signals : AudienceSignals
  timing_windows : TimingWindows
  dwell_time_seconds : ℤ
  cost_tier : String
  foot_traffic_daily : Option ℤ := none
deriving DecidableEq, Repr

/-- `DataSource` (recommendations.py, Story 4.10). -/
structure DataSource where
  name : String
  status : String
  details : Option String := none
  last_updated : String
deriving DecidableEq, Repr

/-- Modelled from the spec: the `WarningCategory` record
(`{category_type, display_name, icon, description, severity, metric_value}`).
Its class declaration is not among the sources; only the constructor calls
inside `_detect_deceptive_hotspot` are, so the shape is taken from the
spec's description of `warning_categories` entries. -/
structure WarningCategory where
  category_type : String
  display_name : String
  icon : String
  description : String
  severity : String
  metric_value : Option ℚ
deriving DecidableEq, Repr

/-- One entry of a flagged zone's `alternative_zones` list (a plain dict in
the source). -/
structure AltZone where
  zone_id : String
  zone_name : String
  rank : ℕ
  total_score : ℚ
  reason : String
deriving DecidableEq, Repr

/-- `RiskWarning` (recommendations.py).  The pydantic model declares exactly
these fields and no `warning_categories`; the `warning_categories=` keyword
passed at construction is an extra kwarg, which pydantic's default config
silently ignores, so no constructed `RiskWarning` carries categories. -/
structure RiskWarning where
  is_flagged : Bool
  warning_type : String
  reason : String
  severity : String
  details_foot_traffic_daily : ℤ
  details_dwell_time_seconds : ℤ
  details_audience_match_score : ℚ
  details_audience_match_percent : ℤ
  details_temporal_alignment_score : ℚ
  details_threshold_traffic : ℤ
  details_threshold_dwell_time : ℤ
  details_threshold_audience_match : ℚ
  details_threshold_temporal : ℚ
  alternative_zones : List AltZone := []
deriving DecidableEq, Repr

/-- `ZoneScore` (recommendations.py). -/
structure ZoneScore where
  zone : Zone
  total_score : ℚ
  audience_match_score : ℚ
  temporal_alignment_score : ℚ
  distance_score : ℚ
  dwell_time_score : ℚ
  distance_miles : ℚ
  reasoning : String
  data_sources : List DataSource := []
  risk_warning : Option RiskWarning := none
deriving DecidableEq, Repr

/-! ### Scoring components -/

/-- `_calculate_audience_match` (0-40 points). -/
def calculateAudienceMatch (target_audience : List String)
    (zone_audience_signals : AudienceSignals) : ℚ :=
  if target_audience.isEmpty then 0
  else
    let all_zone_signals := zone_audience_signals.demographics ++
      zone_audience_signals.interests ++ zone_audience_signals.behaviors
    if all_zone_signals.isEmpty then 0
    else
      let matched := (target_audience.filter (fun audience =>
        all_zone_signals.contains audience)).length
      let match_percentage := (matched : ℚ) / (target_audience.length : ℚ)
      match_percentage * 40

/-- Parse one `"HH:MM-HH:MM"` entry of `window["times"]`: the tuple
unpacking of `time_range.split("-")` and the two `int(∙.split(":")[0])`
calls; any `ValueError`/`IndexError` makes the entry be skipped. -/
def parseTimeRange (time_range : String) : Option (ℤ × ℤ) :=
  match pySplit time_range "-" with
  | [start_time, end_time] =>
    match parseLeadHour start_time, parseLeadHour end_time with
    | some start_hour, some end_hour => some (start_hour, end_hour)
    | _, _ => none
  | _ => none

/-- The inner `for time_range in window_times` loop with its `break`. -/
def timeMatchOf (event_hour : ℤ) (window_times : List String) : Bool :=
  window_times.any (fun time_range =>
    match parseTimeRange time_range with
    | some se => decide (se.1 ≤ event_hour ∧ event_hour < se.2)
    | none => false)

/-- The loop body of `_calculate_temporal_alignment`: one window's
alignment score. -/
def windowScoreCode (event_day : String) (event_hour : ℤ) (window : Window) : ℚ :=
  let day_match := window.days.contains event_day
  let time_match := timeMatchOf event_hour window.times
  if day_match && time_match then 30
  else if day_match then 20
  else if time_match then 15
  else 5

/-- `_calculate_temporal_alignment` (0-30 points). -/
def calculateTemporalAlignment (event_date event_time event_type : String)
    (timing_windows : TimingWindows) : ℚ :=
  let optimal_windows := timing_windows.optimal
  if optimal_windows.isEmpty then 15
  else
    match parseDateWeekday event_date with
    | none => 15
    | some event_day =>
      match parseLeadHour event_time with
      | none => 15
      | some event_hour =>
        optimal_windows.foldl
          (fun best_alignment_score window =>
            max best_alignment_score (windowScoreCode event_day event_hour window)) 0

/-- `_calculate_distance_score` (0-20 points). -/
def calculateDistanceScore (distance_miles : ℚ) : ℚ :=
  if distance_miles ≤ 1 then 20
  else if distance_miles ≤ 3 then 15
  else if distance_miles ≤ 5 then 10
  else if distance_miles ≤ 10 then 5
  else 2

/-- `_calculate_dwell_time_score` (0-10 points). -/
def calculateDwellTimeScore (dwell_time_seconds : ℤ) : ℚ :=
  if dwell_time_seconds ≥ 60 then 10
  else if dwell_time_seconds ≥ 45 then 8
  else if dwell_time_seconds ≥ 30 then 6
  else if dwell_time_seconds ≥ 20 then 4
  else 2

/-- `_detect_data_sources` (Story 4.10).  `hasattr(zone, 'foot_traffic_daily')`
is always true for the pydantic `Zone`, and the truthiness test on the
`timing_windows` dict composed with `len(∙.get("optimal", [])) > 0` amounts
to `optimal ≠ []`. -/
def detectDataSources (zone : Zone) (event_data : EventData) : List DataSource :=
  let base_date := "2026-02-10"
  let zone_name_lower := pyLower zone.name
  let metro : DataSource :=
    if containsSub zone_name_lower "metro" then
      let line_info :=
        if containsSub zone_name_lower "orange" then "Orange Line, high confidence"
        else if containsSub zone_name_lower "blue" then "Blue/Orange/Silver Lines, high confidence"
        else "high confidence"
      { name := "Metro transit schedules", status := "detected",
        details := some ("Transit access [" ++ line_info ++ "]"), last_updated := base_date }
    else
      { name := "Metro transit schedules", status := "not_detected",
        details := some "No direct Metro access", last_updated := base_date }
  let foot : List DataSource :=
    [{ name := "Arlington Open Data (foot traffic)", status := "detected",
       details := some "Daily foot traffic patterns monitored", last_updated := base_date }]
  let timing : List DataSource :=
    if zone.timing_windows.optimal.length > 0 then
      [{ name := "Behavioral timing patterns", status := "detected",
         details := some "Optimal windows identified for target audience",
         last_updated := base_date }]
    else []
  let permits : List DataSource :=
    [{ name := "Event permits database", status := "not_detected",
       details := some "No competing events detected", last_updated := base_date }]
  [metro] ++ foot ++ timing ++ permits

/-- `_get_time_period_behavioral_context` (Story 6.4). -/
def getTimePeriodBehavioralContext (time_period : String) (zone : Zone)
    (audience_match : ℚ) : String :=
  let zone_name_lower := pyLower zone.name
  let is_transit := ["metro", "station", "transit", "ballston", "rosslyn", "clarendon"].any
    (fun keyword => containsSub zone_name_lower keyword)
  let is_restaurant := ["restaurant", "dining", "cafe", "coffee", "food"].any
    (fun keyword => containsSub zone_name_lower keyword)
  let is_retail := ["retail", "shopping", "store", "shops"].any
    (fun keyword => containsSub zone_name_lower keyword)
  if time_period = "morning" then
    if is_transit then
      "commuters heading to work (7-9am), high attention during morning routine, prime time for weekend event discovery"
    else if is_restaurant then
      "morning coffee crowd, leisurely browsing, receptive to event information"
    else if is_retail then
      "early shoppers with time to browse, unhurried pace, good attention span"
    else "morning foot traffic with routine patterns, consistent daily exposure"
  else if time_period = "lunch" then
    if is_transit then
      "lunch-hour commuters and office workers, mid-day breaks, good browsing time"
    else if is_restaurant then
      "office workers on lunch break (11am-2pm), browsing mindset, looking for nearby activities"
    else if is_retail then
      "lunch shoppers taking breaks, relaxed pace, receptive to event details"
    else "mid-day crowd with flexible schedule, good dwell time, walkable radius matters"
  else if time_period = "evening" then
    if is_transit then
      "commuters heading home (5-7pm), weekend planning mode, repetition builds awareness"
    else if is_restaurant then
      "dinner crowd with leisure time, social mindset, discussing weekend plans"
    else if is_retail then
      "evening shoppers unwinding, browsing for entertainment, receptive to event ideas"
    else "evening foot traffic with leisure mindset, good attention for event details"
  else "strategic timing for target audience behavior patterns"

/-- `f"{x:.1f}"` on a (nonnegative, in this pipeline) float, used for the
mileage in reasoning strings. -/
def formatRat1 (x : ℚ) : String :=
  let n := pyRound0 (10 * x)
  let sign := if n < 0 then "-" else ""
  let a := n.natAbs
  sign ++ toString (a / 10) ++ "." ++ toString (a % 10)

/-- `s[0].upper() + s[1:]` (the source only reaches this with a non-empty
first reason). -/
def capitalizeFirst (s : String) : String :=
  match s.data with
  | [] => s
  | c :: cs => String.mk (c.toUpper :: cs)

/-- `_generate_reasoning` (Stories 4.9 and 6.4).  `event_data.time_period or
"evening"` replaces both `None` and the empty string by `"evening"`. -/
def generateReasoning (zone : Zone) (audience_match temporal_alignment : ℚ)
    (distance_miles : ℚ) (dwell_time_seconds : ℤ) (event_data : EventData) : String :=
  let time_period := match event_data.time_period with
    | some tp => if tp = "" then "evening" else tp
    | none => "evening"
  let time_context := getTimePeriodBehavioralContext time_period zone audience_match
  let r1 : List String := if time_context = "" then [] else [time_context]
  let r2 := r1 ++
    (if audience_match ≥ 32 then ["excellent audience match for your target demographics"]
     else if audience_match ≥ 24 then ["good audience alignment"]
     else [])
  let r3 := r2 ++
    (if distance_miles < 1 then ["very close to venue (" ++ formatRat1 distance_miles ++ " mi)"]
     else if distance_miles < 3 then ["walkable distance (" ++ formatRat1 distance_miles ++ " mi)"]
     else [])
  let r4 := r3 ++
    (if dwell_time_seconds ≥ 45 then
       ["high dwell time (" ++ toString dwell_time_seconds ++ "s) for ad visibility"]
     else if dwell_time_seconds ≥ 30 then
       ["moderate dwell time (" ++ toString dwell_time_seconds ++ "s)"]
     else [])
  let reasons := match r4 with
    | [] => []
    | h :: t => capitalizeFirst h :: t
  zone.name ++ ": " ++ String.intercalate ", " reasons ++ "."

/-! ### Risk detection (Stories 7.1 / 7.5) -/

/-- The `categories` list assembled in `_detect_deceptive_hotspot`
(lines 512-557).  The visual-noise branch reads
`getattr(zone, 'visual_distractions', 'medium')` and
`getattr(zone, 'advertising_density', 0)`; the `Zone` model declares
neither field, so for every `Zone` value the lookups yield the defaults
`"medium"` and `0`, written out below exactly as the condition then
evaluates. -/
def detectCategories (zone : Zone) (audience_match_score : ℚ)
    (dwell_time_seconds : ℤ) (temporal_alignment_score : ℚ) : List WarningCategory :=
  let has_low_dwell_time := dwell_time_seconds < 20
  let has_poor_audience_match := audience_match_score < 24
  let has_timing_misalignment := temporal_alignment_score < 15
  let c1 : List WarningCategory :=
    if has_low_dwell_time then
      [{ category_type := "low_dwell_time", display_name := "Low Dwell Time", icon := "⏱️",
         description := "People spend only " ++ toString dwell_time_seconds ++
           "s here - not enough time to notice ads",
         severity := "high", metric_value := some (dwell_time_seconds : ℚ) }]
    else []
  let c2 : List WarningCategory :=
    if has_poor_audience_match then
      let audience_match_percent := pyTrunc (audience_match_score / 40 * 100)
      [{ category_type := "poor_audience_match", display_name := "Poor Audience Match",
         icon := "🎯",
         description := "Only " ++ toString audience_match_percent ++
           "% audience match - your target audience doesn\x27t frequent this zone",
         severity := "high", metric_value := some (audience_match_percent : ℚ) }]
    else []
  let c3 : List WarningCategory :=
    if has_timing_misalignment then
      let timing_percent := pyTrunc (temporal_alignment_score / 30 * 100)
      [{ category_type := "timing_misalignment", display_name := "Timing Misalignment",
         icon := "📅",
         description := "Only " ++ toString timing_percent ++
           "% timing alignment - people aren\x27t there when you need them",
         severity := "medium", metric_value := some (timing_percent : ℚ) }]
    else []
  let visual_distractions := "medium"
  let advertising_density : ℤ := 0
  let c4 : List WarningCategory :=
    if visual_distractions = "high" ∨ advertising_density > 10 then
      [{ category_type := "visual_noise", display_name := "Visual Noise Saturation",
         icon := "👁️",
         description := "High visual clutter - your ad will compete with " ++
           toString advertising_density ++ " others",
         severity := "medium",
         metric_value := if advertising_density > 0 then some (advertising_density : ℚ)
           else none }]
    else []
  c1 ++ c2 ++ c3 ++ c4

/-- `_detect_deceptive_hotspot`.  `getattr(zone, 'foot_traffic_daily', 0)`
finds the pydantic attribute (default `None`) on every `Zone`, so the `0`
fallback is dead; when the value is `None`, `None > 1000` raises
`TypeError` before anything else happens.  The `WarningCategory`
constructions are in `detectCategories`; the `warning_categories=` kwarg is
dropped by the `RiskWarning` pydantic model (no such declared field), and
`reason.strip()` is the identity since `reason` starts and ends with
non-whitespace. -/
def detectDeceptiveHotspot (zone : Zone) (audience_match_score : ℚ)
    (dwell_time_seconds : ℤ) (temporal_alignment_score : ℚ) :
    Except PyErr (Option RiskWarning) :=
  match zone.foot_traffic_daily with
  | none => Except.error PyErr.typeError
  | some foot_traffic_daily =>
    let has_high_traffic := foot_traffic_daily > 1000
    let has_low_dwell_time := dwell_time_seconds < 20
    let has_poor_audience_match := audience_match_score < 24
    let categories := detectCategories zone audience_match_score dwell_time_seconds
      temporal_alignment_score
    if categories.isEmpty then Except.ok none
    else
      let category_names := categories.map (fun cat => cat.display_name)
      let reason0 := "Multiple risk factors detected: " ++
        String.intercalate ", " category_names ++ ". "
      let reason1 := if has_high_traffic then
        reason0 ++ "High traffic (" ++ toString foot_traffic_daily ++ "/day) but " else reason0
      let reason2 := if has_low_dwell_time then
        reason1 ++ "people rush through (" ++ toString dwell_time_seconds ++ "s). " else reason1
      let reason3 := if has_poor_audience_match then
        reason2 ++ "Poor audience match (" ++
          toString (pyTrunc (audience_match_score / 40 * 100)) ++ "%). " else reason2
      let reason := reason3 ++ "Posters likely to be overlooked."
      let audience_match_percent := pyTrunc (audience_match_score / 40 * 100)
      Except.ok (some
        { is_flagged := true
          warning_type := "deceptive_hotspot"
          reason := reason
          severity := if categories.length ≥ 2 then "high" else "medium"
          details_foot_traffic_daily := foot_traffic_daily
          details_dwell_time_seconds := dwell_time_seconds
          details_audience_match_score := audience_match_score
          details_audience_match_percent := audience_match_percent
          details_temporal_alignment_score := temporal_alignment_score
          details_threshold_traffic := 1000
          details_threshold_dwell_time := 20
          details_threshold_audience_match := 24
          details_threshold_temporal := 15
          alternative_zones := [] })

/-! ### Alternative-zone selection (Story 7.4) and the orchestrator -/

/-- The `sz.zone.zone_id` attribute access in `_select_alternative_zones`:
the `Zone` pydantic model declares its identifier as `id`, not `zone_id`,
so this access raises `AttributeError`. -/
def zoneZoneIdAttr (z : Zone) : Except PyErr String := Except.error PyErr.attributeError

/-- `_select_alternative_zones`.  The very first statement evaluates
`sz.zone.zone_id == flagged_zone.zone_id` on each element of
`all_scored_zones` until one matches; on a non-empty list the first
evaluation already raises `AttributeError` (see `zoneZoneIdAttr`), and on
an empty list `next(..., None)` yields `None` and the function returns
`[]`. -/
def selectAlternativeZones (flagged_zone : Zone) (all_scored_zones : List ZoneScore)
    (max_alternatives : ℕ := 3) : Except PyErr (List AltZone) :=
  match all_scored_zones with
  | [] => Except.ok []
  | sz :: _ =>
    match zoneZoneIdAttr sz.zone with
    | Except.error e => Except.error e
    | Except.ok _ => Except.ok []

/-- A Python `for` loop that builds a list and lets exceptions propagate:
the first raising element aborts the whole computation. -/
def mapExcept (f : α → Except PyErr β) : List α → Except PyErr (List β)
  | [] => Except.ok []
  | a :: l =>
    match f a with
    | Except.error e => Except.error e
    | Except.ok b =>
      match mapExcept f l with
      | Except.error e => Except.error e
      | Except.ok bs => Except.ok (b :: bs)

/-- The per-zone body of `score_zones`. -/
def scoreZone (dist : ℚ → ℚ → ℚ → ℚ → ℚ) (event_data : EventData) (zone : Zone) :
    Except PyErr ZoneScore :=
  let audience_match := calculateAudienceMatch event_data.target_audience zone.audience_signals
  let temporal_alignment := calculateTemporalAlignment event_data.date event_data.time
    event_data.event_type zone.timing_windows
  let distance_miles := dist event_data.venue_lat event_data.venue_lon zone.lat zone.lon
  let distance_score_val := calculateDistanceScore distance_miles
  let dwell_time_score_val := calculateDwellTimeScore zone.dwell_time_seconds
  let total_score := audience_match + temporal_alignment + distance_score_val +
    dwell_time_score_val
  let reasoning := generateReasoning zone audience_match temporal_alignment distance_miles
    zone.dwell_time_seconds event_data
  let data_sources := detectDataSources zone event_data
  match detectDeceptiveHotspot zone audience_match zone.dwell_time_seconds
    temporal_alignment with
  | Except.error e => Except.error e
  | Except.ok risk_warning =>
    Except.ok
      { zone := zone
        total_score := round1 total_score
        audience_match_score := round1 audience_match
        temporal_alignment_score := round1 temporal_alignment
        distance_score := round1 distance_score_val
        dwell_time_score := round1 dwell_time_score_val
        distance_miles := round2 distance_miles
        reasoning := reasoning
        data_sources := data_sources
        risk_warning := risk_warning }

/-- The comparison `scored_zones.sort(key=lambda x: x.total_score,
reverse=True)` sorts by: `a` may come before `b` iff `b`'s total does not
exceed `a`'s. -/
def scoreDescOrder (a b : ZoneScore) : Prop := b.total_score ≤ a.total_score

instance : DecidableRel scoreDescOrder := fun a b =>
  inferInstanceAs (Decidable (b.total_score ≤ a.total_score))

instance : IsTotal ZoneScore scoreDescOrder :=
  ⟨fun a b => le_total b.total_score a.total_score⟩

instance : IsTrans ZoneScore scoreDescOrder :=
  ⟨fun _ _ _ hab hbc => le_trans hbc hab⟩

/-- `scored_zones.sort(key=lambda x: x.total_score, reverse=True)`: Python's
sort is stable, and any stable sort with the same comes-before relation
produces the same list; `List.insertionSort` is such a sort. -/
def sortScored (scored_zones : List ZoneScore) : List ZoneScore :=
  scored_zones.insertionSort scoreDescOrder

/-- The body of the Story 7.4 second-pass loop of `score_zones`: when the
element is flagged, select alternatives against the sorted list and store
them on its warning (the in-place mutation only writes
`alternative_zones`, which the selection itself never reads). -/
def attachOne (sorted_zones : List ZoneScore) (scored_zone : ZoneScore) :
    Except PyErr ZoneScore :=
  match scored_zone.risk_warning with
  | some rw =>
    if rw.is_flagged then
      match selectAlternativeZones scored_zone.zone sorted_zones 3 with
      | Except.error e => Except.error e
      | Except.ok alternatives =>
        Except.ok { scored_zone with
          risk_warning := some { rw with alternative_zones := alternatives } }
    else Except.ok scored_zone
  | none => Except.ok scored_zone

/-- The Story 7.4 second pass of `score_zones` over the sorted list. -/
def attachAlternatives (sorted_zones : List ZoneScore) : Except PyErr (List ZoneScore) :=
  mapExcept (attachOne sorted_zones) sorted_zones

/-- `score_zones`.  The zone list that the source pulls from
`self.zones_service.get_all_zones()` is passed explicitly, and the
Haversine `_calculate_distance` is the parameter `dist` (see the header
note). -/
def scoreZones (dist : ℚ → ℚ → ℚ → ℚ → ℚ) (event_data : EventData)
    (zones : List Zone) : Except PyErr (List ZoneScore) :=
  match mapExcept (scoreZone dist event_data) zones with
  | Except.error e => Except.error e
  | Except.ok scored_zones => attachAlternatives (sortScored scored_zones)

/-! ### Spec-side characterizations (stated from the spec's words, for
comparison with the code-side definitions above) -/

/-- The spec's notion of time match: the event hour lies in some half-open
interval `[start_hour, end_hour)` parsed from an entry of `window.times`. -/
def specTimeMatch (event_hour : ℤ) (window_times : List String) : Prop :=
  ∃ r ∈ window_times, ∃ s e : ℤ,
    parseTimeRange r = some (s, e) ∧ s ≤ event_hour ∧ event_hour < e

instance (event_hour : ℤ) (window_times : List String) :
    Decidable (specTimeMatch event_hour window_times) :=
  decidable_of_iff (timeMatchOf event_hour window_times = true) (by
    simp only [timeMatchOf, List.any_eq_true, specTimeMatch]
    constructor
    · rintro ⟨r, hr, hb⟩
      refine ⟨r, hr, ?_⟩
      cases h : parseTimeRange r with
      | none => rw [h] at hb; cases hb
      | some se =>
        obtain ⟨s1, e1⟩ := se
        rw [h] at hb
        exact ⟨s1, e1, rfl, (of_decide_eq_true hb).1, (of_decide_eq_true hb).2⟩
    · rintro ⟨r, hr, s, e, hp, h1, h2⟩
      refine ⟨r, hr, ?_⟩
      rw [hp]
      exact decide_eq_true ⟨h1, h2⟩)

/-- The spec's per-window score: 30 on day∧time match, 20 on day only,
15 on time only, 5 on neither. -/
def specWindowScore (event_day : String) (event_hour : ℤ) (window : Window) : ℚ :=
  if event_day ∈ window.days ∧ specTimeMatch event_hour window.times then 30
  else if event_day ∈ window.days then 20
  else if specTimeMatch event_hour window.times then 15
  else 5

/-- Follows the spec (§4.7) — equally, the source's evident intent with the
zone identifier read through the declared field `id` instead of the
raising `zone_id` access: candidates are the unflagged, strictly
higher-scoring, distinct zones; sorted by score descending; top
`max_alternatives`; rank is the 1-indexed position in the full sorted
list. -/
def selectAlternativesSpec (flagged_zone : Zone) (all_scored_zones : List ZoneScore)
    (max_alternatives : ℕ := 3) : List AltZone :=
  match all_scored_zones.find? (fun sz => sz.zone.id == flagged_zone.id) with
  | none => []
  | some flagged_zone_data =>
    let flagged_score := flagged_zone_data.total_score
    let candidates := all_scored_zones.filter (fun sz =>
      (match sz.risk_warning with
       | none => true
       | some rw => !rw.is_flagged)
      && decide (sz.total_score > flagged_score)
      && (sz.zone.id != flagged_zone.id))
    let candidates_sorted := candidates.insertionSort scoreDescOrder
    (candidates_sorted.take max_alternatives).map (fun candidate =>
      let rank := match all_scored_zones.findIdx?
          (fun sz => sz.zone.id == candidate.zone.id) with
        | some i => i + 1
        | none => 0
      let reasons : List String :=
        (if candidate.audience_match_score > flagged_zone_data.audience_match_score + 5 then
          [toString (pyTrunc (candidate.audience_match_score / 40 * 100)) ++ "% audience match"]
         else []) ++
        (if candidate.dwell_time_score > flagged_zone_data.dwell_time_score + 2 then
          ["better dwell time"] else []) ++
        (if candidate.distance_miles < flagged_zone_data.distance_miles then
          ["closer to venue"] else [])
      let reasons' := if reasons.isEmpty then ["higher overall score"] else reasons
      { zone_id := candidate.zone.id, zone_name := candidate.zone.name, rank := rank,
        total_score := round1 candidate.total_score,
        reason := String.intercalate ", " reasons' })

/-! ### Observation helpers -/

/-- Severity of a risk-detection result, when one was produced. -/
def riskSeverityOf (r : Except PyErr (Option RiskWarning)) : Option String :=
  match r with
  | Except.ok (some w) => some w.severity
  | _ => none

/-- Flag of a risk-detection result, when one was produced. -/
def riskFlaggedOf (r : Except PyErr (Option RiskWarning)) : Option Bool :=
  match r with
  | Except.ok (some w) => some w.is_flagged
  | _ => none

/-! ### Concrete fixtures for witnesses and counterexamples -/

/-- A distance function standing in for the Haversine helper in concrete
runs: it reports the zone's `lat` as the distance in miles, letting a
fixture choose its own distances. -/
def distByLat : ℚ → ℚ → ℚ → ℚ → ℚ := fun _ _ lat2 _ => lat2

/-- A plain event. -/
def ev0 : EventData :=
  { name := "Launch workshop", date := "2026-02-19", time := "18:00",
    venue_lat := 38, venue_lon := -77, target_audience := ["a"],
    event_type := "workshop", time_period := some "evening" }

/-- A well-formed zone whose `foot_traffic_daily` is absent (`None`). -/
def zAbsentTraffic : Zone :=
  { id := "z-absent", name := "plaza", lat := 5, lon := 0,
    audience_signals := { demographics := ["a"] },
    timing_windows := {}, dwell_time_seconds := 60,
    cost_tier := "free", foot_traffic_daily := none }

/-- The spec's deceptive-hotspot example zone: high traffic, 10s dwell. -/
def zHotspot : Zone :=
  { id := "z-hot", name := "busy corridor", lat := 1, lon := 0,
    audience_signals := {}, timing_windows := {}, dwell_time_seconds := 10,
    cost_tier := "$", foot_traffic_daily := some 5000 }

/-- A zone triggering no risk rule (traffic present). -/
def zCalm : Zone :=
  { id := "z-calm", name := "quiet square", lat := 1, lon := 0,
    audience_signals := {}, timing_windows := {}, dwell_time_seconds := 60,
    cost_tier := "$", foot_traffic_daily := some 800 }

/-- `zCalm` with the traffic field absent. -/
def zCalmAbsent : Zone := { zCalm with foot_traffic_daily := none }

/-- Witness zones for the output contract: both match the event audience,
neither triggers any risk rule. -/
def zPlaza : Zone :=
  { id := "z-plaza", name := "plaza", lat := 5, lon := 0,
    audience_signals := { demographics := ["a"] },
    timing_windows := {}, dwell_time_seconds := 60,
    cost_tier := "free", foot_traffic_daily := some 500 }

def zCorner : Zone :=
  { id := "z-corner", name := "corner", lat := 4, lon := 0,
    audience_signals := { demographics := ["a"] },
    timing_windows := {}, dwell_time_seconds := 45,
    cost_tier := "$", foot_traffic_daily := some 900 }

/-- Five zones for the alternative-selection scenario (A flagged, B and C
better, D and E worse). -/
def zoneA : Zone :=
  { id := "A", name := "zone A", lat := 1, lon := 0, audience_signals := {},
    timing_windows := {}, dwell_time_seconds := 10, cost_tier := "$",
    foot_traffic_daily := some 5000 }

def zoneB : Zone :=
  { id := "B", name := "zone B", lat := 1, lon := 0, audience_signals := {},
    timing_windows := {}, dwell_time_seconds := 60, cost_tier := "$",
    foot_traffic_daily := some 900 }

def zoneC : Zone :=
  { id := "C", name := "zone C", lat := 2, lon := 0, audience_signals := {},
    timing_windows := {}, dwell_time_seconds := 50, cost_tier := "$",
    foot_traffic_daily := some 800 }

def zoneD : Zone :=
  { id := "D", name := "zone D", lat := 6, lon := 0, audience_signals := {},
    timing_windows := {}, dwell_time_seconds := 30, cost_tier := "$",
    foot_traffic_daily := some 700 }

def zoneE : Zone :=
  { id := "E", name := "zone E", lat := 12, lon := 0, audience_signals := {},
    timing_windows := {}, dwell_time_seconds := 25, cost_tier := "$",
    foot_traffic_daily := some 600 }

/-- A flagged warning for `zoneA`'s score entry. -/
def warnA : RiskWarning :=
  { is_flagged := true, warning_type := "deceptive_hotspot",
    reason := "Multiple risk factors detected: Low Dwell Time. Posters likely to be overlooked.",
    severity := "medium", details_foot_traffic_daily := 5000,
    details_dwell_time_seconds := 10, details_audience_match_score := 30,
    details_audience_match_percent := 75, details_temporal_alignment_score := 15,
    details_threshold_traffic := 1000, details_threshold_dwell_time := 20,
    details_threshold_audience_match := 24, details_threshold_temporal := 15 }

/-- The sorted scored list for the five-zone scenario
(B 92 > C 88 > A 75 flagged > D 60 > E 50). -/
def scoredB : ZoneScore :=
  { zone := zoneB, total_score := 92, audience_match_score := 40,
    temporal_alignment_score := 30, distance_score := 20, dwell_time_score := 10,
    distance_miles := 1, reasoning := "zone B: strong." }

def scoredC : ZoneScore :=
  { zone := zoneC, total_score := 88, audience_match_score := 38,
    temporal_alignment_score := 30, distance_score := 15, dwell_time_score := 8,
    distance_miles := 2, reasoning := "zone C: strong." }

def scoredA : ZoneScore :=
  { zone := zoneA, total_score := 75, audience_match_score := 30,
    temporal_alignment_score := 15, distance_score := 20, dwell_time_score := 2,
    distance_miles := 1, reasoning := "zone A: busy.", risk_warning := some warnA }

def scoredD : ZoneScore :=
  { zone := zoneD, total_score := 60, audience_match_score := 25,
    temporal_alignment_score := 15, distance_score := 10, dwell_time_score := 6,
    distance_miles := 6, reasoning := "zone D: fair." }

def scoredE : ZoneScore :=
  { zone := zoneE, total_score := 50, audience_match_score := 20,
    temporal_alignment_score := 15, distance_score := 2, dwell_time_score := 4,
    distance_miles := 12, reasoning := "zone E: far." }

def fiveSorted : List ZoneScore := [scoredB, scoredC, scoredA, scoredD, scoredE]

/-- A Thursday-evening window, matching `ev0`. -/
def winThursdayEvening : Window :=
  { days := ["Thursday"], times := ["17:00-19:00"], reasoning := "after-work crowd" }

/-! ### Rounding lemmas -/

theorem ratFloor_eq_intFloor (x : ℚ) : x.floor = ⌊x⌋ :=
  (Rat.floor_def' x).trans Rat.floor_def.symm

theorem pyRound0_le (x : ℚ) (n : ℤ) (h : x ≤ (n : ℚ)) : pyRound0 x ≤ n := by
  unfold pyRound0
  rw [ratFloor_eq_intFloor]
  dsimp only
  have hfl : ⌊x⌋ ≤ n := by
    have := Int.floor_le_floor h
    simpa using this
  split_ifs with h1 h2 h3
  · exact hfl
  · have hlt : (⌊x⌋ : ℚ) < x := by
      have : (1:ℚ)/2 < x - ⌊x⌋ := h2
      linarith
    have : (⌊x⌋ : ℚ) < (n : ℚ) := lt_of_lt_of_le hlt h
    have := Int.cast_lt.mp this
    omega
  · exact hfl
  · have hhalf : x - ⌊x⌋ = 1/2 := le_antisymm (not_lt.mp h2) (not_lt.mp h1)
    have hlt : (⌊x⌋ : ℚ) < x := by linarith
    have : (⌊x⌋ : ℚ) < (n : ℚ) := lt_of_lt_of_le hlt h
    have := Int.cast_lt.mp this
    omega

theorem le_pyRound0 (x : ℚ) (n : ℤ) (h : (n : ℚ) ≤ x) : n ≤ pyRound0 x := by
  unfold pyRound0
  rw [ratFloor_eq_intFloor]
  dsimp only
  have hfl : n ≤ ⌊x⌋ := Int.le_floor.mpr h
  split_ifs <;> omega

theorem pyRound0_intCast (n : ℤ) : pyRound0 (n : ℚ) = n := by
  unfold pyRound0
  rw [ratFloor_eq_intFloor, Int.floor_intCast]
  norm_num

theorem pyRound0_add_int_even (x : ℚ) (n : ℤ) (hn : n % 2 = 0) :
    pyRound0 (x + (n : ℚ)) = pyRound0 x + n := by
  unfold pyRound0
  rw [ratFloor_eq_intFloor, ratFloor_eq_intFloor, Int.floor_add_int]
  dsimp only
  have hr : x + (n : ℚ) - ((⌊x⌋ + n : ℤ) : ℚ) = x - (⌊x⌋ : ℚ) := by
    push_cast
    ring
  rw [hr]
  have hpar : ((⌊x⌋ + n) % 2 = 0) ↔ (⌊x⌋ % 2 = 0) := by omega
  split_ifs with h1 h2 h3 <;> omega

theorem round1_intCast (n : ℤ) : round1 (n : ℚ) = (n : ℚ) := by
  unfold round1
  have h : (10 : ℚ) * (n : ℚ) = ((10 * n : ℤ) : ℚ) := by push_cast; ring
  rw [h, pyRound0_intCast]
  push_cast
  field_simp

theorem round1_int_eq (x : ℚ) (h : ∃ n : ℤ, x = (n : ℚ)) : round1 x = x := by
  obtain ⟨n, rfl⟩ := h
  exact round1_intCast n

theorem round1_add_intCast (x : ℚ) (n : ℤ) : round1 (x + (n : ℚ)) = round1 x + (n : ℚ) := by
  unfold round1
  have h : (10 : ℚ) * (x + (n : ℚ)) = 10 * x + ((10 * n : ℤ) : ℚ) := by push_cast; ring
  rw [h, pyRound0_add_int_even _ _ (by omega : (10 * n) % 2 = 0)]
  push_cast
  ring

theorem round1_nonneg (x : ℚ) (h : 0 ≤ x) : 0 ≤ round1 x := by
  unfold round1
  have h0 : ((0 : ℤ) : ℚ) ≤ 10 * x := by push_cast; linarith
  have := le_pyRound0 (10 * x) 0 h0
  have hc : (0 : ℚ) ≤ (pyRound0 (10 * x) : ℚ) := by exact_mod_cast this
  linarith

theorem round1_le_intCast (x : ℚ) (n : ℤ) (h : x ≤ (n : ℚ)) : round1 x ≤ (n : ℚ) := by
  unfold round1
  have h1 : 10 * x ≤ ((10 * n : ℤ) : ℚ) := by push_cast; linarith
  have h2 := pyRound0_le (10 * x) (10 * n) h1
  have hc : (pyRound0 (10 * x) : ℚ) ≤ ((10 * n : ℤ) : ℚ) := by exact_mod_cast h2
  rw [div_le_iff₀ (by norm_num : (0 : ℚ) < 10)]
  push_cast at hc ⊢
  linarith

theorem round2_intCast (n : ℤ) : round2 (n : ℚ) = (n : ℚ) := by
  unfold round2
  have h : (100 : ℚ) * (n : ℚ) = ((100 * n : ℤ) : ℚ) := by push_cast; ring
  rw [h, pyRound0_intCast]
  push_cast
  field_simp

/-! ### Bounds and shape lemmas for the scoring components -/

theorem filterRatio_bounds (p : String → Bool) (l : List String) (hl : 0 < l.length) :
    0 ≤ ((l.filter p).length : ℚ) / (l.length : ℚ) * 40 ∧
      ((l.filter p).length : ℚ) / (l.length : ℚ) * 40 ≤ 40 := by
  have hle : (l.filter p).length ≤ l.length := List.length_filter_le _ _
  have hden : (0:ℚ) < (l.length : ℚ) := by exact_mod_cast hl
  have hnum : (0:ℚ) ≤ ((l.filter p).length : ℚ) := by positivity
  constructor
  · positivity
  · have hratio : ((l.filter p).length : ℚ) / (l.length : ℚ) ≤ 1 := by
      rw [div_le_one hden]
      exact_mod_cast hle
    nlinarith

theorem audienceMatch_bounds (target_audience : List String) (sig : AudienceSignals) :
    0 ≤ calculateAudienceMatch target_audience sig ∧
      calculateAudienceMatch target_audience sig ≤ 40 := by
  unfold calculateAudienceMatch
  dsimp only
  split_ifs with h1 h2
  · norm_num
  · norm_num
  · have hlen : 0 < target_audience.length := by
      cases target_audience with
      | nil => simp at h1
      | cons a l => simp
    exact filterRatio_bounds _ _ hlen

theorem windowScoreCode_shape (event_day : String) (event_hour : ℤ) (w : Window) :
    ∃ n : ℤ, windowScoreCode event_day event_hour w = (n : ℚ) ∧ 5 ≤ n ∧ n ≤ 30 := by
  unfold windowScoreCode
  dsimp only
  split_ifs
  · exact ⟨30, by norm_num⟩
  · exact ⟨20, by norm_num⟩
  · exact ⟨15, by norm_num⟩
  · exact ⟨5, by norm_num⟩

theorem foldl_windowScore_shape (event_day : String) (event_hour : ℤ) :
    ∀ (l : List Window) (b : ℚ) (n : ℤ), b = (n : ℚ) → 0 ≤ n → n ≤ 30 →
      ∃ m : ℤ,
        l.foldl (fun best w => max best (windowScoreCode event_day event_hour w)) b = (m : ℚ) ∧
        0 ≤ m ∧ m ≤ 30
  | [], b, n, hb, h0, h30 => ⟨n, by simpa [hb], h0, h30⟩
  | w :: l, b, n, hb, h0, h30 => by
    obtain ⟨k, hk, hk5, hk30⟩ := windowScoreCode_shape event_day event_hour w
    have hmax : max b (windowScoreCode event_day event_hour w) = ((max n k : ℤ) : ℚ) := by
      rw [hb, hk]
      push_cast
      rfl
    exact foldl_windowScore_shape event_day event_hour l _ (max n k) hmax
      (le_max_of_le_left h0) (max_le h30 hk30)

theorem temporal_shape (event_date event_time event_type : String) (tw : TimingWindows) :
    ∃ n : ℤ, calculateTemporalAlignment event_date event_time event_type tw = (n : ℚ) ∧
      0 ≤ n ∧ n ≤ 30 := by
  unfold calculateTemporalAlignment
  dsimp only
  split_ifs
  · exact ⟨15, by norm_num⟩
  · cases parseDateWeekday event_date with
    | none => exact ⟨15, by norm_num⟩
    | some event_day =>
      cases parseLeadHour event_time with
      | none => exact ⟨15, by norm_num⟩
      | some event_hour =>
        exact foldl_windowScore_shape event_day event_hour tw.optimal 0 0 (by norm_num)
          le_rfl (by norm_num)

theorem distScore_shape (x : ℚ) :
    ∃ n : ℤ, calculateDistanceScore x = (n : ℚ) ∧ 0 ≤ n ∧ n ≤ 20 := by
  unfold calculateDistanceScore
  split_ifs
  · exact ⟨20, by norm_num⟩
  · exact ⟨15, by norm_num⟩
  · exact ⟨10, by norm_num⟩
  · exact ⟨5, by norm_num⟩
  · exact ⟨2, by norm_num⟩

theorem dwellScore_shape (n : ℤ) :
    ∃ m : ℤ, calculateDwellTimeScore n = (m : ℚ) ∧ 0 ≤ m ∧ m ≤ 10 := by
  unfold calculateDwellTimeScore
  split_ifs
  · exact ⟨10, by norm_num⟩
  · exact ⟨8, by norm_num⟩
  · exact ⟨6, by norm_num⟩
  · exact ⟨4, by norm_num⟩
  · exact ⟨2, by norm_num⟩

/-! ### Pipeline lemmas -/

theorem mapExcept_ok_mem {α β : Type} (f : α → Except PyErr β) :
    ∀ (l : List α) (r : List β), mapExcept f l = Except.ok r →
      ∀ b ∈ r, ∃ a ∈ l, f a = Except.ok b := by
  intro l
  induction l with
  | nil =>
    intro r h b hb
    unfold mapExcept at h
    cases h
    cases hb
  | cons a l ih =>
    intro r h b hb
    unfold mapExcept at h
    cases hfa : f a with
    | error e => rw [hfa] at h; cases h
    | ok b0 =>
      rw [hfa] at h
      cases hrec : mapExcept f l with
      | error e => rw [hrec] at h; cases h
      | ok bs =>
        rw [hrec] at h
        cases h
        cases hb with
        | head => exact ⟨a, List.mem_cons_self a l, hfa⟩
        | tail _ hb' =>
          obtain ⟨a', ha', hfa'⟩ := ih bs hrec b hb'
          exact ⟨a', List.mem_cons_of_mem a ha', hfa'⟩

theorem selectAlternativeZones_err (flagged_zone : Zone) (l : List ZoneScore)
    (hl : l ≠ []) : selectAlternativeZones flagged_zone l 3 = Except.error PyErr.attributeError := by
  cases l with
  | nil => exact absurd rfl hl
  | cons sz t => rfl

theorem attachOne_ok_eq (L : List ZoneScore) (sz b : ZoneScore) (hsz : sz ∈ L)
    (h : attachOne L sz = Except.ok b) : b = sz := by
  unfold attachOne at h
  cases hrw : sz.risk_warning with
  | none => rw [hrw] at h; cases h; rfl
  | some rw0 =>
    rw [hrw] at h
    dsimp only at h
    by_cases hf : rw0.is_flagged
    · rw [if_pos hf] at h
      have hL : L ≠ [] := by
        intro hL0
        rw [hL0] at hsz
        cases hsz
      rw [selectAlternativeZones_err sz.zone L hL] at h
      cases h
    · rw [if_neg hf] at h
      cases h
      rfl

theorem attach_aux (L : List ZoneScore) :
    ∀ (l : List ZoneScore) (r : List ZoneScore), (∀ sz ∈ l, sz ∈ L) →
      mapExcept (attachOne L) l = Except.ok r → r = l := by
  intro l
  induction l with
  | nil =>
    intro r _ h
    unfold mapExcept at h
    cases h
    rfl
  | cons sz l ih =>
    intro r hmem h
    unfold mapExcept at h
    cases hfa : attachOne L sz with
    | error e => rw [hfa] at h; cases h
    | ok b =>
      rw [hfa] at h
      cases hrec : mapExcept (attachOne L) l with
      | error e => rw [hrec] at h; cases h
      | ok bs =>
        rw [hrec] at h
        cases h
        have hb : b = sz := attachOne_ok_eq L sz b (hmem sz (List.mem_cons_self sz l)) hfa
        have hbs : bs = l := ih bs (fun z hz => hmem z (List.mem_cons_of_mem sz hz)) hrec
        rw [hb, hbs]

theorem attachAlternatives_ok (L r : List ZoneScore)
    (h : attachAlternatives L = Except.ok r) : r = L :=
  attach_aux L L r (fun _ hz => hz) h

theorem scoreZones_ok (dist : ℚ → ℚ → ℚ → ℚ → ℚ) (e : EventData) (zs : List Zone)
    (res : List ZoneScore) (h : scoreZones dist e zs = Except.ok res) :
    ∃ scored, mapExcept (scoreZone dist e) zs = Except.ok scored ∧ res = sortScored scored := by
  unfold scoreZones at h
  cases hm : mapExcept (scoreZone dist e) zs with
  | error e0 => rw [hm] at h; cases h
  | ok scored =>
    rw [hm] at h
    exact ⟨scored, rfl, attachAlternatives_ok _ _ h⟩

theorem scoreZone_ok_fields (dist : ℚ → ℚ → ℚ → ℚ → ℚ) (e : EventData) (z : Zone)
    (s : ZoneScore) (h : scoreZone dist e z = Except.ok s) :
    s.audience_match_score =
      round1 (calculateAudienceMatch e.target_audience z.audience_signals) ∧
    s.temporal_alignment_score =
      round1 (calculateTemporalAlignment e.date e.time e.event_type z.timing_windows) ∧
    s.distance_score =
      round1 (calculateDistanceScore (dist e.venue_lat e.venue_lon z.lat z.lon)) ∧
    s.dwell_time_score = round1 (calculateDwellTimeScore z.dwell_time_seconds) ∧
    s.total_score =
      round1 (calculateAudienceMatch e.target_audience z.audience_signals +
        calculateTemporalAlignment e.date e.time e.event_type z.timing_windows +
        calculateDistanceScore (dist e.venue_lat e.venue_lon z.lat z.lon) +
        calculateDwellTimeScore z.dwell_time_seconds) := by
  unfold scoreZone at h
  dsimp only at h
  cases hd : detectDeceptiveHotspot z
      (calculateAudienceMatch e.target_audience z.audience_signals)
      z.dwell_time_seconds
      (calculateTemporalAlignment e.date e.time e.event_type z.timing_windows) with
  | error e0 => rw [hd] at h; cases h
  | ok rw0 =>
    rw [hd] at h
    cases h
    exact ⟨rfl, rfl, rfl, rfl, rfl⟩

theorem sortScored_pairwise (l : List ZoneScore) :
    (sortScored l).Pairwise (fun a b => b.total_score ≤ a.total_score) :=
  List.sorted_insertionSort scoreDescOrder l

theorem sortScored_mem (l : List ZoneScore) (s : ZoneScore) :
    s ∈ sortScored l ↔ s ∈ l :=
  (List.perm_insertionSort scoreDescOrder l).mem_iff

theorem timeMatchOf_iff (event_hour : ℤ) (window_times : List String) :
    timeMatchOf event_hour window_times = true ↔ specTimeMatch event_hour window_times := by
  simp only [timeMatchOf, List.any_eq_true, specTimeMatch]
  constructor
  · rintro ⟨r, hr, hb⟩
    refine ⟨r, hr, ?_⟩
    cases h : parseTimeRange r with
    | none => rw [h] at hb; cases hb
    | some se =>
      obtain ⟨s1, e1⟩ := se
      rw [h] at hb
      exact ⟨s1, e1, rfl, (of_decide_eq_true hb).1, (of_decide_eq_true hb).2⟩
  · rintro ⟨r, hr, s, e, hp, h1, h2⟩
    refine ⟨r, hr, ?_⟩
    rw [hp]
    exact decide_eq_true ⟨h1, h2⟩

theorem windowScore_eq (day : String) (hour : ℤ) (w : Window) :
    windowScoreCode day hour w = specWindowScore day hour w := by
  unfold windowScoreCode specWindowScore
  dsimp only
  by_cases hD : day ∈ w.days <;> by_cases hT : specTimeMatch hour w.times <;>
    simp [List.contains, hD, hT, timeMatchOf_iff]

theorem foldl_max_bounds_mem (l : List ℚ) (b : ℚ) :
    (∀ x ∈ l, x ≤ l.foldl max b) ∧ b ≤ l.foldl max b ∧
      (l.foldl max b = b ∨ ∃ x ∈ l, l.foldl max b = x) := by
  induction l generalizing b with
  | nil => exact ⟨by simp, le_rfl, Or.inl rfl⟩
  | cons a l ih =>
    obtain ⟨h1, h2, h3⟩ := ih (max b a)
    simp only [List.foldl_cons]
    refine ⟨?_, ?_, ?_⟩
    · intro x hx
      rcases List.mem_cons.mp hx with rfl | hx
      · exact le_trans (le_max_right b x) h2
      · exact h1 x hx
    · exact le_trans (le_max_left b a) h2
    · rcases h3 with h3 | ⟨x, hx, hx2⟩
      · rcases max_choice b a with hc | hc
        · exact Or.inl (h3.trans hc)
        · exact Or.inr ⟨a, List.mem_cons_self a l, h3.trans hc⟩
      · exact Or.inr ⟨x, List.mem_cons_of_mem a hx, hx2⟩

theorem specWindowScore_ge_5 (day : String) (hour : ℤ) (w : Window) :
    (5 : ℚ) ≤ specWindowScore day hour w := by
  obtain ⟨n, hn, hn5, _⟩ := windowScoreCode_shape day hour w
  rw [← windowScore_eq, hn]
  exact_mod_cast hn5

/-! ### Claim theorems -/

/-- C1: the claim asserts `score_zones` completes without exception on every
well-formed input, `foot_traffic_daily` optionally absent.  The code
violates it: for a well-formed zone (all required fields present, dwell
time 60 ≥ 0) whose `foot_traffic_daily` is absent, the risk detector
evaluates `None > 1000` and `score_zones` raises `TypeError` instead of
returning one `ZoneScore` for the zone. -/
theorem c1_scoreZones_raises_on_absent_traffic :
    zAbsentTraffic.dwell_time_seconds ≥ 0 ∧
      scoreZones distByLat ev0 [zAbsentTraffic] = Except.error PyErr.typeError ∧
      scoreZones distByLat ev0 [] = Except.ok [] :=
  ⟨by decide, rfl, rfl⟩

/-- C2: for the spec's example zone (`foot_traffic_daily=5000`,
`dwell_time_seconds=10`, `audience_match_score=10`, temporal 20), the
detector's rule evaluation does produce exactly the `low_dwell_time` and
`poor_audience_match` categories in the table's order, and the returned
warning is non-null with severity `"high"` — but the constructed
`RiskWarning` model declares no `warning_categories` field, so the
category list never reaches the returned object (and the module-level name
`WarningCategory` is itself undefined in the source, so the category
construction path raises `NameError` as written). -/
theorem c2_risk_positive_categories :
    (detectCategories zHotspot 10 10 20).map (fun c => c.category_type) =
      ["low_dwell_time", "poor_audience_match"] ∧
    riskFlaggedOf (detectDeceptiveHotspot zHotspot 10 10 20) = some true ∧
    riskSeverityOf (detectDeceptiveHotspot zHotspot 10 10 20) = some "high" ∧
    (detectCategories zHotspot 30 10 20).map (fun c => c.category_type) =
      ["low_dwell_time"] ∧
    riskSeverityOf (detectDeceptiveHotspot zHotspot 30 10 20) = some "medium" :=
  ⟨rfl, rfl, rfl, rfl, rfl⟩

/-- C3: on the five-zone scenario (B 92 and C 88 unflagged above flagged
A 75, D 60 and E 50 below), `_select_alternative_zones` never reaches the
selection logic: its first comparison reads `sz.zone.zone_id` while the
`Zone` model declares `id`, raising `AttributeError`.  The spec's selection
(the source's intent with the field read as `id`) returns exactly B then C
with ranks 1 and 2. -/
theorem c3_alternatives_crash_and_intent :
    selectAlternativeZones zoneA fiveSorted 3 = Except.error PyErr.attributeError ∧
    (selectAlternativesSpec zoneA fiveSorted 3).map (fun a => (a.zone_id, a.rank)) =
      [("B", 1), ("C", 2)] :=
  ⟨rfl, by decide⟩

/-- C4: with no rule triggering (dwell 60, audience 35 of 40, temporal 25
of 30, no visual-noise fields) the detector returns null when
`foot_traffic_daily` is present — but for the same zone with the field
absent, the claim says absence is treated as 0 and null is still returned,
while the code raises `TypeError` on `None > 1000`. -/
theorem c4_risk_negative_and_absent_crash :
    detectDeceptiveHotspot zCalm 35 60 25 = Except.ok none ∧
      detectDeceptiveHotspot zCalmAbsent 35 60 25 = Except.error PyErr.typeError :=
  ⟨rfl, rfl⟩

/-- C8: the distance bands have inclusive upper bounds
(≤1→20, (1,3]→15, (3,5]→10, (5,10]→5, >10→2) and the dwell bands have
inclusive lower bounds (≥60→10, [45,60)→8, [30,45)→6, [20,30)→4, <20→2). -/
theorem c8_banding (d : ℚ) (n : ℤ) :
    (d ≤ 1 → calculateDistanceScore d = 20) ∧
    (1 < d ∧ d ≤ 3 → calculateDistanceScore d = 15) ∧
    (3 < d ∧ d ≤ 5 → calculateDistanceScore d = 10) ∧
    (5 < d ∧ d ≤ 10 → calculateDistanceScore d = 5) ∧
    (10 < d → calculateDistanceScore d = 2) ∧
    (60 ≤ n → calculateDwellTimeScore n = 10) ∧
    (45 ≤ n ∧ n < 60 → calculateDwellTimeScore n = 8) ∧
    (30 ≤ n ∧ n < 45 → calculateDwellTimeScore n = 6) ∧
    (20 ≤ n ∧ n < 30 → calculateDwellTimeScore n = 4) ∧
    (n < 20 → calculateDwellTimeScore n = 2) := by
  unfold calculateDistanceScore calculateDwellTimeScore
  refine ⟨?_, ?_, ?_, ?_, ?_, ?_, ?_, ?_, ?_, ?_⟩ <;> intro h <;>
    (try obtain ⟨h1, h2⟩ := h) <;> split_ifs <;> try rfl
  all_goals exfalso
  all_goals try omega
  all_goals linarith

/-- C8 witness: the band edges 3.0 mi → 15 and 59 s → 8. -/
theorem c8_banding_witness :
    calculateDistanceScore 3 = 15 ∧ calculateDwellTimeScore 59 = 8 :=
  ⟨(c8_banding 3 59).2.1 ⟨by norm_num, by norm_num⟩,
   (c8_banding 3 59).2.2.2.2.2.2.1 ⟨by norm_num, by norm_num⟩⟩

/-- C9: with at least one optimal window, an unparseable event date or an
event time without a parseable leading hour yields the neutral score 15.0
(and, the parse failures being modelled by `Option`, no exception). -/
theorem c9_fail_soft (d t et : String) (tw : TimingWindows) (hw : tw.optimal ≠ [])
    (hp : parseDateWeekday d = none ∨ parseLeadHour t = none) :
    calculateTemporalAlignment d t et tw = 15 := by
  obtain ⟨opt⟩ := tw
  cases opt with
  | nil => exact absurd rfl hw
  | cons w ws =>
    unfold calculateTemporalAlignment
    dsimp only
    rcases hp with hp | hp
    · rw [hp]
      exact rfl
    · cases hd : parseDateWeekday d with
      | none => exact rfl
      | some day =>
        rw [hp]
        exact rfl

/-- C9 witness: a malformed date with a real window still scores 15. -/
theorem c9_fail_soft_witness :
    calculateTemporalAlignment "not-a-date" "18:00" "workshop" ⟨[winThursdayEvening]⟩ = 15 :=
  c9_fail_soft "not-a-date" "18:00" "workshop" ⟨[winThursdayEvening]⟩ (by decide)
    (Or.inl (by decide))

/-- C10: the `Zone` model declares neither `visual_distractions` nor
`advertising_density`, so the getattr defaults `"medium"` and `0` make the
visual-noise condition false for every zone and every score input: no
category list the detector builds ever contains a `visual_noise` entry. -/
theorem c10_visual_noise_unreachable (z : Zone) (am : ℚ) (dw : ℤ) (t : ℚ) :
    (detectCategories z am dw t).all (fun c => c.category_type != "visual_noise") = true := by
  unfold detectCategories
  dsimp only
  rw [if_neg (by decide : ¬("medium" = "high" ∨ (0 : ℤ) > 10))]
  split_ifs <;> rfl

/-- C6: with a parseable date weekday and a parseable leading hour, the
temporal score over a non-empty window list is the maximum of the
spec's per-window scores (30 day∧time, 20 day, 15 time, 5 neither, with
the half-open interval time-match semantics), and an empty window list
yields 15. -/
theorem c6_temporal_alignment (d t et : String) (tw : TimingWindows) (day : String)
    (hour : ℤ) (hd : parseDateWeekday d = some day) (ht : parseLeadHour t = some hour) :
    (tw.optimal = [] → calculateTemporalAlignment d t et tw = 15) ∧
    (tw.optimal ≠ [] →
      calculateTemporalAlignment d t et tw =
        (tw.optimal.map (specWindowScore day hour)).foldl max 0) ∧
    (tw.optimal ≠ [] →
      (∀ w ∈ tw.optimal,
        specWindowScore day hour w ≤ calculateTemporalAlignment d t et tw) ∧
      ∃ w ∈ tw.optimal,
        calculateTemporalAlignment d t et tw = specWindowScore day hour w) := by
  have hmain : tw.optimal ≠ [] →
      calculateTemporalAlignment d t et tw =
        (tw.optimal.map (specWindowScore day hour)).foldl max 0 := by
    intro hne
    obtain ⟨opt⟩ := tw
    cases opt with
    | nil => exact absurd rfl hne
    | cons w ws =>
      unfold calculateTemporalAlignment
      dsimp only
      rw [hd]
      dsimp only
      rw [ht]
      dsimp only
      rw [if_neg (by simp : ¬((w :: ws).isEmpty = true))]
      rw [List.foldl_map]
      exact List.foldl_ext
        (fun best_alignment_score window =>
          max best_alignment_score (windowScoreCode day hour window))
        (fun x y => max x (specWindowScore day hour y)) 0
        (fun a b hb => by simp only [windowScore_eq])
  refine ⟨?_, hmain, ?_⟩
  · intro h0
    unfold calculateTemporalAlignment
    dsimp only
    rw [h0]
    exact rfl
  · intro hne
    rw [hmain hne]
    obtain ⟨h1, h2, h3⟩ :=
      foldl_max_bounds_mem (tw.optimal.map (specWindowScore day hour)) 0
    constructor
    · intro w hw
      exact h1 _ (List.mem_map_of_mem _ hw)
    · rcases h3 with h0 | ⟨x, hx, hx2⟩
      · exfalso
        obtain ⟨w0, hw0⟩ := List.exists_mem_of_ne_nil tw.optimal hne
        have hle := h1 _ (List.mem_map_of_mem (specWindowScore day hour) hw0)
        rw [h0] at hle
        have := specWindowScore_ge_5 day hour w0
        linarith
      · obtain ⟨w0, hw0, hfw⟩ := List.mem_map.mp hx
        exact ⟨w0, hw0, by rw [hx2, hfw]⟩

/-- C6 witness: Thursday 2026-02-19 at 18:00 against a Thursday
17:00-19:00 window scores 30. -/
theorem c6_temporal_alignment_witness :
    calculateTemporalAlignment "2026-02-19" "18:00" "workshop" ⟨[winThursdayEvening]⟩ = 30 := by
  have h := (c6_temporal_alignment "2026-02-19" "18:00" "workshop" ⟨[winThursdayEvening]⟩
    "Thursday" 18 (by decide) (by decide)).2.1 (by decide)
  rw [h]
  decide

/-- C7: the audience match is 0 when the target list or the concatenated
zone tag list is empty, and otherwise is exactly
`(matches / len(target)) * 40` with `matches` counting the target tags
present in the concatenation — no rounding inside. -/
theorem c7_audience_match (target : List String) (sig : AudienceSignals) :
    ((target = [] ∨ sig.demographics ++ sig.interests ++ sig.behaviors = []) →
      calculateAudienceMatch target sig = 0) ∧
    (target ≠ [] → sig.demographics ++ sig.interests ++ sig.behaviors ≠ [] →
      calculateAudienceMatch target sig =
        ((target.countP
          (fun a => decide (a ∈ sig.demographics ++ sig.interests ++ sig.behaviors))) : ℚ) /
          (target.length : ℚ) * 40) := by
  constructor
  · rintro (h | h)
    · subst h
      rfl
    · simp [calculateAudienceMatch, h]
  · intro h1 h2
    unfold calculateAudienceMatch
    dsimp only
    rw [if_neg (by simpa [List.isEmpty_iff] using h1),
      if_neg (by simpa [List.isEmpty_iff] using h2)]
    rw [List.countP_eq_length_filter]
    have hpred : (fun audience =>
        (sig.demographics ++ sig.interests ++ sig.behaviors).contains audience) =
        (fun a => decide (a ∈ sig.demographics ++ sig.interests ++ sig.behaviors)) := by
      funext a
      simp [List.contains]
    rw [hpred]

/-- C7 witness: `["a","b","c"]` against demographics `["a","b"]` scores
`40 * 2/3` exactly. -/
theorem c7_audience_match_witness :
    calculateAudienceMatch ["a", "b", "c"] { demographics := ["a", "b"] } = 40 * 2 / 3 := by
  have h := (c7_audience_match ["a", "b", "c"] { demographics := ["a", "b"] }).2
    (by decide) (by decide)
  rw [h]
  have hc : (["a", "b", "c"].countP
      (fun a => decide (a ∈ ({ demographics := ["a", "b"] } : AudienceSignals).demographics ++
        ({ demographics := ["a", "b"] } : AudienceSignals).interests ++
        ({ demographics := ["a", "b"] } : AudienceSignals).behaviors))) = 2 := by decide
  rw [hc]
  norm_num

theorem filter_orderedInsert (q : ℚ) (x : ZoneScore) (l : List ZoneScore) :
    (List.orderedInsert scoreDescOrder x l).filter (fun s => decide (s.total_score = q)) =
      if x.total_score = q then
        x :: l.filter (fun s => decide (s.total_score = q))
      else l.filter (fun s => decide (s.total_score = q)) := by
  induction l with
  | nil =>
    simp only [List.orderedInsert, List.filter]
    by_cases hx : x.total_score = q <;> simp [hx]
  | cons b l ih =>
    simp only [List.orderedInsert]
    by_cases hr : scoreDescOrder x b
    · rw [if_pos hr]
      by_cases hx : x.total_score = q <;> simp [hx, List.filter_cons]
    · rw [if_neg hr]
      by_cases hx : x.total_score = q <;> by_cases hb : b.total_score = q
      · exfalso
        exact hr (by unfold scoreDescOrder; rw [hx, hb])
      · simp [List.filter_cons, hx, hb, ih]
      · simp [List.filter_cons, hx, hb, ih]
      · simp [List.filter_cons, hx, hb, ih]

/-- Stability of the sort model: the subsequence of any fixed total score is
unchanged, i.e. ties keep their original iteration order. -/
theorem sortScored_stable (l : List ZoneScore) (q : ℚ) :
    (sortScored l).filter (fun s => decide (s.total_score = q)) =
      l.filter (fun s => decide (s.total_score = q)) := by
  unfold sortScored
  induction l with
  | nil => rfl
  | cons a l ih =>
    rw [List.insertionSort, filter_orderedInsert q a, ih]
    by_cases ha : a.total_score = q <;> simp [List.filter_cons, ha]

/-- C5: whenever `score_zones` returns a list, every returned `ZoneScore`
has its sub-scores in the documented ranges ([0,40], [0,30], [0,20],
[0,10]), its total in [0,100] and within 0.1 of the sum of the rounded
sub-scores, and the list is non-increasing in `total_score`. -/
theorem c5_output_contract (dist : ℚ → ℚ → ℚ → ℚ → ℚ) (e : EventData) (zs : List Zone)
    (res : List ZoneScore) (h : scoreZones dist e zs = Except.ok res) :
    (∀ s ∈ res,
      0 ≤ s.audience_match_score ∧ s.audience_match_score ≤ 40 ∧
      0 ≤ s.temporal_alignment_score ∧ s.temporal_alignment_score ≤ 30 ∧
      0 ≤ s.distance_score ∧ s.distance_score ≤ 20 ∧
      0 ≤ s.dwell_time_score ∧ s.dwell_time_score ≤ 10 ∧
      0 ≤ s.total_score ∧ s.total_score ≤ 100 ∧
      |s.total_score - (s.audience_match_score + s.temporal_alignment_score +
        s.distance_score + s.dwell_time_score)| ≤ 1/10) ∧
    res.Pairwise (fun a b => b.total_score ≤ a.total_score) ∧
    (∃ scored, mapExcept (scoreZone dist e) zs = Except.ok scored ∧
      res = sortScored scored ∧
      ∀ q : ℚ, res.filter (fun s => decide (s.total_score = q)) =
        scored.filter (fun s => decide (s.total_score = q))) := by
  obtain ⟨scored, hm, hres⟩ := scoreZones_ok dist e zs res h
  subst hres
  refine ⟨?_, sortScored_pairwise scored, scored, hm, rfl,
    fun q => sortScored_stable scored q⟩
  intro s hs
  obtain ⟨z, hz, hsz⟩ := mapExcept_ok_mem _ zs scored hm s ((sortScored_mem scored s).mp hs)
  obtain ⟨ham, htemp, hdist, hdwell, htot⟩ := scoreZone_ok_fields dist e z s hsz
  obtain ⟨hA0, hA40⟩ := audienceMatch_bounds e.target_audience z.audience_signals
  obtain ⟨nt, hnt, hnt0, hnt30⟩ := temporal_shape e.date e.time e.event_type z.timing_windows
  obtain ⟨nd, hnd, hnd0, hnd20⟩ := distScore_shape (dist e.venue_lat e.venue_lon z.lat z.lon)
  obtain ⟨nw, hnw, hnw0, hnw10⟩ := dwellScore_shape z.dwell_time_seconds
  rw [ham, htemp, hdist, hdwell, htot, hnt, hnd, hnw]
  rw [round1_intCast, round1_intCast, round1_intCast]
  have htotal :
      round1 (calculateAudienceMatch e.target_audience z.audience_signals +
        (nt : ℚ) + (nd : ℚ) + (nw : ℚ)) =
      round1 (calculateAudienceMatch e.target_audience z.audience_signals) +
        ((nt + nd + nw : ℤ) : ℚ) := by
    have hre : calculateAudienceMatch e.target_audience z.audience_signals +
        (nt : ℚ) + (nd : ℚ) + (nw : ℚ) =
        calculateAudienceMatch e.target_audience z.audience_signals +
          ((nt + nd + nw : ℤ) : ℚ) := by
      push_cast
      ring
    rw [hre, round1_add_intCast]
  rw [htotal]
  have hr0 : 0 ≤ round1 (calculateAudienceMatch e.target_audience z.audience_signals) :=
    round1_nonneg _ hA0
  have hr40 : round1 (calculateAudienceMatch e.target_audience z.audience_signals) ≤ 40 := by
    have := round1_le_intCast _ 40 (by exact_mod_cast hA40)
    exact_mod_cast this
  have ht0' : (0 : ℚ) ≤ (nt : ℚ) := by exact_mod_cast hnt0
  have ht30' : ((nt : ℚ)) ≤ 30 := by exact_mod_cast hnt30
  have hd0' : (0 : ℚ) ≤ (nd : ℚ) := by exact_mod_cast hnd0
  have hd20' : ((nd : ℚ)) ≤ 20 := by exact_mod_cast hnd20
  have hw0' : (0 : ℚ) ≤ (nw : ℚ) := by exact_mod_cast hnw0
  have hw10' : ((nw : ℚ)) ≤ 10 := by exact_mod_cast hnw10
  refine ⟨hr0, hr40, ht0', ht30', hd0', hd20', hw0', hw10', ?_, ?_, ?_⟩
  · push_cast
    linarith
  · push_cast
    linarith
  · rw [abs_le]
    constructor <;> push_cast <;> linarith

/-- Evaluation helper: `round1` is the identity on integral rationals. -/
theorem round1_eval (x y : ℚ) (n : ℤ) (hx : x = (n : ℚ)) (hy : (n : ℚ) = y) :
    round1 x = y := by
  rw [hx, round1_intCast, hy]

/-- Evaluation helper: `round2` is the identity on integral rationals. -/
theorem round2_eval (x y : ℚ) (n : ℤ) (hx : x = (n : ℚ)) (hy : (n : ℚ) = y) :
    round2 x = y := by
  rw [hx, round2_intCast, hy]

/-- The `ZoneScore` that `score_zones` produces for `zPlaza` under `ev0`
and `distByLat`. -/
def sPlaza : ZoneScore :=
  { zone := zPlaza, total_score := 75, audience_match_score := 40,
    temporal_alignment_score := 15, distance_score := 10, dwell_time_score := 10,
    distance_miles := 5,
    reasoning := "plaza: Evening foot traffic with leisure mindset, good attention for event details, excellent audience match for your target demographics, high dwell time (60s) for ad visibility.",
    data_sources :=
      [{ name := "Metro transit schedules", status := "not_detected",
         details := some "No direct Metro access", last_updated := "2026-02-10" },
       { name := "Arlington Open Data (foot traffic)", status := "detected",
         details := some "Daily foot traffic patterns monitored", last_updated := "2026-02-10" },
       { name := "Event permits database", status := "not_detected",
         details := some "No competing events detected", last_updated := "2026-02-10" }],
    risk_warning := none }

theorem scoreZone_zPlaza : scoreZone distByLat ev0 zPlaza = Except.ok sPlaza := by
  have eam : calculateAudienceMatch ev0.target_audience zPlaza.audience_signals = 40 := by
    unfold calculateAudienceMatch ev0 zPlaza
    dsimp only
    rw [if_neg (by decide), if_neg (by decide)]
    have hf : (List.filter
        (fun audience => (["a"] ++ [] ++ [] : List String).contains audience)
        (["a"] : List String)).length = 1 := rfl
    rw [hf]
    norm_num
  have etm : calculateTemporalAlignment ev0.date ev0.time ev0.event_type
      zPlaza.timing_windows = 15 := rfl
  have edist : distByLat ev0.venue_lat ev0.venue_lon zPlaza.lat zPlaza.lon = 5 := rfl
  have edsc : calculateDistanceScore (5 : ℚ) = 10 := rfl
  have edw : calculateDwellTimeScore zPlaza.dwell_time_seconds = 10 := rfl
  have edet : detectDeceptiveHotspot zPlaza 40 zPlaza.dwell_time_seconds 15 =
      Except.ok none := rfl
  unfold scoreZone
  dsimp only
  rw [eam, etm, edist, edsc, edw, edet]
  dsimp only
  rw [round1_eval (40 + 15 + 10 + 10 : ℚ) 75 75 (by norm_num) (by norm_num),
    round1_eval (40 : ℚ) 40 40 (by norm_num) (by norm_num),
    round1_eval (15 : ℚ) 15 15 (by norm_num) (by norm_num),
    round1_eval (10 : ℚ) 10 10 (by norm_num) (by norm_num),
    round2_eval (5 : ℚ) 5 5 (by norm_num) (by norm_num)]
  exact rfl

theorem scoreZones_zPlaza : scoreZones distByLat ev0 [zPlaza] = Except.ok [sPlaza] := by
  unfold scoreZones mapExcept
  rw [scoreZone_zPlaza]
  exact rfl

/-- C5 witness: the single-zone run above satisfies the output contract. -/
theorem c5_output_contract_witness :
    (∀ s ∈ [sPlaza],
      0 ≤ s.audience_match_score ∧ s.audience_match_score ≤ 40 ∧
      0 ≤ s.temporal_alignment_score ∧ s.temporal_alignment_score ≤ 30 ∧
      0 ≤ s.distance_score ∧ s.distance_score ≤ 20 ∧
      0 ≤ s.dwell_time_score ∧ s.dwell_time_score ≤ 10 ∧
      0 ≤ s.total_score ∧ s.total_score ≤ 100 ∧
      |s.total_score - (s.audience_match_score + s.temporal_alignment_score +
        s.distance_score + s.dwell_time_score)| ≤ 1/10) ∧
    ([sPlaza] : List ZoneScore).Pairwise (fun a b => b.total_score ≤ a.total_score) ∧
    (∃ scored, mapExcept (scoreZone distByLat ev0) [zPlaza] = Except.ok scored ∧
      ([sPlaza] : List ZoneScore) = sortScored scored ∧
      ∀ q : ℚ, ([sPlaza] : List ZoneScore).filter (fun s => decide (s.total_score = q)) =
        scored.filter (fun s => decide (s.total_score = q))) :=
  c5_output_contract distByLat ev0 [zPlaza] [sPlaza] scoreZones_zPlaza

end OpenPlaces
